import Mathlib

/-!
Shallow embedding of the chart-configuration normalization and
rendering-selection core of `src/components/ChartComponent.js`.

Modelling conventions:
* JS `undefined`/missing or not-a-sequence fields are `Option.none`
  (the raw data model gives each field a fixed optional type).
* `Math.random`-based color generation is modelled by an oracle
  `o : Nat → Nat` together with an explicit draw counter: each call to
  `randomColor` consumes three consecutive draws (r, g, b), exactly as the
  JS function makes three `Math.random()` calls.  Alpha is kept in
  hundredths (`20`, `60`, `100` for JS `0.2`, `0.6`, `1`).
* JS truthiness of `ds.label || "Series"` etc. is modelled explicitly:
  a missing option or an empty string is falsy.
-/

/-- An rgba color as produced by `randomColor`: three channel values and an
alpha stored in hundredths. -/
structure RGBA where
  r : Nat
  g : Nat
  b : Nat
  alphaPct : Nat
deriving DecidableEq, Repr

/-- Model of `randomColor` from the source: three fresh draws from the oracle, each
`Math.floor(Math.random() * 255)`, i.e. reduced mod 255, starting at draw
index `k`. -/
def randomColor (o : Nat → Nat) (k : Nat) (alphaPct : Nat) : RGBA :=
  ⟨o k % 255, o (k + 1) % 255, o (k + 2) % 255, alphaPct⟩

/-- A JS color value: an author-supplied string, a single generated rgba
color, or a per-label list of generated rgba colors. -/
inductive CVal where
  | str (s : String)
  | single (c : RGBA)
  | perLabel (cs : List RGBA)
deriving DecidableEq, Repr

/-- JS truthiness of a color value (an empty string is falsy; arrays and
color records are always truthy). -/
def CVal.truthy : CVal → Bool
  | .str s => s ≠ ""
  | .single _ => true
  | .perLabel _ => true

/-- A raw series as received from the answering service.  `data = none`
models a missing or non-sequence `data` field; `extra` holds all further
fields of the JS object, carried along by the `...ds` spread. -/
structure RawSeries where
  label : Option String := none
  data : Option (List Int) := none
  backgroundColor : Option CVal := none
  borderColor : Option CVal := none
  extra : List (String × String) := []
deriving DecidableEq, Repr

/-- A raw chart specification.  `labels = none` / `datasets = none` model a
missing or non-sequence field (the source tests both with
`Array.isArray`). -/
structure RawChartSpec where
  labels : Option (List String) := none
  datasets : Option (List RawSeries) := none
deriving DecidableEq, Repr

/-- A normalized series, output of the defensive cleanup. -/
structure NormSeries where
  label : String
  data : List Int
  backgroundColor : CVal
  borderColor : CVal
  extra : List (String × String)
deriving DecidableEq, Repr

/-- A normalized chart configuration: resolved labels plus the surviving,
fully-defaulted series. -/
structure NormConfig where
  labels : List String
  datasets : List NormSeries
deriving DecidableEq, Repr

/-- The filter predicate of the source:
`Array.isArray(ds.data) && ds.data.length > 0`. -/
def isValidSeries (ds : RawSeries) : Bool :=
  match ds.data with
  | some xs => decide (0 < xs.length)
  | none => false

/-- Label resolution of the source:
`Array.isArray(chartConfig.labels) ? chartConfig.labels
 : chartConfig.datasets[0]?.data?.map((_, i) => `Label ${i+1}`) || []`.
Note it reads `datasets[0]`, the first raw dataset, before any filtering. -/
def resolveLabels (rawLabels : Option (List String))
    (dss : List RawSeries) : List String :=
  match rawLabels with
  | some ls => ls
  | none =>
    match dss with
    | [] => []
    | d :: _ =>
      match d.data with
      | some xs => (List.range xs.length).map (fun i => s!"Label {i + 1}")
      | none => []

/-- The generated background color when the series supplies none:
`chartType === "line" ? randomColor(0.2) : labels.map(() => randomColor(0.6))`.
Returns the color together with the advanced draw counter. -/
def genBgColor (chartType : String) (labels : List String) (o : Nat → Nat)
    (k : Nat) : CVal × Nat :=
  if chartType = "line" then
    (.single (randomColor o k 20), k + 3)
  else
    (.perLabel ((List.range labels.length).map
        (fun i => randomColor o (k + 3 * i) 60)),
     k + 3 * labels.length)

/-- Normalization of one surviving series (the body of the `.map` in the
source): spread the raw series, default the label to `"Series"` when
falsy, resolve `backgroundColor` and `borderColor` with short-circuiting
`||` (no draws are consumed when the explicit value is truthy). -/
def normSeriesOf (chartType : String) (labels : List String) (o : Nat → Nat)
    (ds : RawSeries) (k : Nat) : NormSeries × Nat :=
  let bgStep : CVal × Nat :=
    match ds.backgroundColor with
    | some v => if v.truthy then (v, k) else genBgColor chartType labels o k
    | none => genBgColor chartType labels o k
  let k₁ := bgStep.2
  let bcStep : CVal × Nat :=
    match ds.borderColor with
    | some v =>
      if v.truthy then (v, k₁) else (.single (randomColor o k₁ 100), k₁ + 3)
    | none => (.single (randomColor o k₁ 100), k₁ + 3)
  ({ label :=
       match ds.label with
       | some s => if s = "" then "Series" else s
       | none => "Series",
     data := ds.data.getD [],
     backgroundColor := bgStep.1,
     borderColor := bcStep.1,
     extra := ds.extra }, bcStep.2)

/-- Left-to-right map threading the draw counter, matching the JS
evaluation order of the `.map` over the filtered datasets. -/
def mapDraws (f : RawSeries → Nat → NormSeries × Nat) :
    List RawSeries → Nat → List NormSeries
  | [], _ => []
  | d :: rest, k => (f d k).1 :: mapDraws f rest (f d k).2

/-- Model of `safeChartConfig` from the source: the defensive config cleanup.
Returns `none` when the raw config is absent, when `datasets` is not a
sequence, or when filtering leaves no valid series; otherwise returns the
resolved labels and the normalized surviving series. -/
def safeChartConfig (chartType : String) (o : Nat → Nat)
    (chartConfig : Option RawChartSpec) : Option NormConfig :=
  match chartConfig with
  | none => none
  | some cfg =>
    match cfg.datasets with
    | none => none
    | some dss =>
      let labels := resolveLabels cfg.labels dss
      let datasets :=
        mapDraws (normSeriesOf chartType labels o) (dss.filter isValidSeries) 0
      if datasets.length = 0 then none else some ⟨labels, datasets⟩

/-- A table cell: a number taken from a series, or the `"N/A"` sentinel. -/
inductive Cell where
  | num (v : Int)
  | na
deriving DecidableEq, Repr

/-- A plotted series: a normalized series plus the optional augmentation
fields the forecast special-case adds (`borderDash`, `pointRadius`,
`pointBackgroundColor`, `fill`). -/
structure PlotSeries where
  series : NormSeries
  borderDash : Option (List Nat) := none
  pointRadius : Option Nat := none
  pointBackgroundColor : Option String := none
  fill : Option Bool := none
deriving DecidableEq, Repr

/-- The render plan handed to the presentation layer: one of the chart
kinds with its title, labels and datasets, a table grid, or a plain
message element. -/
inductive RenderPlan where
  | line (title : String) (labels : List String) (datasets : List PlotSeries)
  | bar (title : String) (labels : List String) (datasets : List PlotSeries)
  | pie (title : String) (labels : List String) (datasets : List PlotSeries)
  | table (header : List String) (rows : List (String × List Cell))
  | message (text : String)
deriving DecidableEq, Repr

/-- A series plotted without augmentation. -/
def plainPlot (ds : NormSeries) : PlotSeries :=
  { series := ds }

/-- The forecast augmentation from the source: dashed stroke `[6,6]`,
point radius 5, red point markers, area fill, and the fixed highlight
fill color `"rgba(255,99,132,0.2)"` overriding `backgroundColor`. -/
def augmentForecast (ds : NormSeries) : PlotSeries :=
  { series := { ds with backgroundColor := .str "rgba(255,99,132,0.2)" },
    borderDash := some [6, 6],
    pointRadius := some 5,
    pointBackgroundColor := some "red",
    fill := some true }

/-- Model of `defaultChart` from the source: the fixed fallback line chart with
literal labels, data, colors and the no-valid-data title. -/
def defaultChart : RenderPlan :=
  .line "Default Chart (No Valid Data)" ["A", "B", "C", "D"]
    [{ series :=
         { label := "Default Data",
           data := [10, 20, 15, 30],
           backgroundColor := .str "rgba(75, 192, 192, 0.2)",
           borderColor := .str "rgba(75, 192, 192, 1)",
           extra := [] },
       fill := some true }]

/-- Model of `renderTable` from the source: header cells are the series labels, one
row per label, and cell `(rowIndex, colIndex)` is
`ds.data[rowIndex] ?? "N/A"`. -/
def renderTable (cfg : Option NormConfig) : RenderPlan :=
  match cfg with
  | none => .message "No table data available"
  | some c =>
    .table (c.datasets.map (·.label))
      ((List.range c.labels.length).map (fun rowIndex =>
        (c.labels.getD rowIndex "",
         c.datasets.map (fun ds =>
           match ds.data[rowIndex]? with
           | some v => Cell.num v
           | none => Cell.na))))

/-- Model of `renderChart` from the source: the renderer selector.  Falls back to
`defaultChart` when no normalized config exists, then dispatches on the
chart kind; the `"line"` branch takes the modified path when some series
is labeled `"History"` or `"Forecast"`. -/
def renderChart (chartType : String) (cfg : Option NormConfig) : RenderPlan :=
  match cfg with
  | none => defaultChart
  | some c =>
    match chartType with
    | "bar" => .bar "Data Visualization" c.labels (c.datasets.map plainPlot)
    | "line" =>
      if c.datasets.any (fun ds => ds.label == "History" || ds.label == "Forecast") then
        .line "Data Visualization" c.labels
          (c.datasets.map (fun ds =>
            if ds.label = "Forecast" then augmentForecast ds else plainPlot ds))
      else .line "Data Visualization" c.labels (c.datasets.map plainPlot)
    | "pie" => .pie "Data Visualization" c.labels (c.datasets.map plainPlot)
    | "table" => renderTable (some c)
    | _ => defaultChart

/-- The rows of a tabular render plan (empty for non-table plans). -/
def RenderPlan.gridRows : RenderPlan → List (String × List Cell)
  | .table _ rows => rows
  | _ => []

/-- The color-free structure of a normalized config: labels, series count,
and the per-position series data. -/
def configShape (cfg : NormConfig) : List String × Nat × List (List Int) :=
  (cfg.labels, cfg.datasets.length, cfg.datasets.map (·.data))

/-- A constant draw oracle used to instantiate theorems at concrete inputs. -/
def oracle0 : Nat → Nat := fun _ => 0

/-- An identity draw oracle used to instantiate theorems at concrete inputs. -/
def oracleId : Nat → Nat := fun n => n

/-- Raw input whose first dataset is invalid while the second survives:
labels are synthesized from the first raw dataset, not the first survivor. -/
def c1input : RawChartSpec :=
  { labels := none, datasets := some [{ data := none }, { data := some [1, 2] }] }

/-- Raw input with a single valid dataset and no labels field. -/
def c1wspec : RawChartSpec :=
  { labels := none, datasets := some [{ data := some [1, 2] }] }

/-- The sequence of raw series inside `c1wspec`. -/
def c1wdss : List RawSeries := [{ data := some [1, 2] }]

/-- The normalized config produced from `c1wspec` for kind `"bar"` under
the constant oracle. -/
def c1wcfg : NormConfig :=
  { labels := ["Label 1", "Label 2"],
    datasets := [{ label := "Series", data := [1, 2],
                   backgroundColor := .perLabel [⟨0, 0, 0, 60⟩, ⟨0, 0, 0, 60⟩],
                   borderColor := .single ⟨0, 0, 0, 100⟩, extra := [] }] }

/-- A normalized config with one series labeled `"Forecast"` and no series
labeled `"History"`. -/
def c2input : NormConfig :=
  { labels := ["a"],
    datasets := [{ label := "Forecast", data := [1],
                   backgroundColor := .str "x", borderColor := .str "y",
                   extra := [] }] }

/-- A normalized series shorter than the label sequence of `c5wcfg`. -/
def c5wds : NormSeries :=
  { label := "S", data := [10, 20], backgroundColor := .str "x",
    borderColor := .str "y", extra := [] }

/-- A normalized config with three labels and one two-point series. -/
def c5wcfg : NormConfig :=
  { labels := ["r1", "r2", "r3"], datasets := [c5wds] }

/-- A raw series with a single data point and no styling fields. -/
def c7wraw : RawSeries := { data := some [7] }

/-- Raw input holding only `c7wraw`, with an explicit label sequence. -/
def c7wspec : RawChartSpec :=
  { labels := some ["l"], datasets := some [c7wraw] }

/-- The normalized config produced from `c7wspec` for kind `"bar"` under
the identity oracle. -/
def c7wcfg : NormConfig :=
  { labels := ["l"],
    datasets := [{ label := "Series", data := [7],
                   backgroundColor := .perLabel [⟨0, 1, 2, 60⟩],
                   borderColor := .single ⟨3, 4, 5, 100⟩, extra := [] }] }

theorem mapDraws_length (f : RawSeries → Nat → NormSeries × Nat)
    (l : List RawSeries) (k : Nat) : (mapDraws f l k).length = l.length := by
  induction l generalizing k with
  | nil => rfl
  | cons d rest ih => simp [mapDraws, ih]

theorem mapDraws_getElem (f : RawSeries → Nat → NormSeries × Nat)
    (l : List RawSeries) (k j : Nat) (d : RawSeries) (h : l[j]? = some d) :
    ∃ k', (mapDraws f l k)[j]? = some (f d k').1 := by
  induction l generalizing k j with
  | nil => simp at h
  | cons e rest ih =>
    cases j with
    | zero =>
      simp only [List.getElem?_cons_zero, Option.some.injEq] at h
      exact ⟨k, by simp [mapDraws, h]⟩
    | succ j =>
      simp only [List.getElem?_cons_succ] at h
      obtain ⟨k', hk'⟩ := ih (f e k).2 j h
      exact ⟨k', by simpa [mapDraws] using hk'⟩

theorem mapDraws_mem (f : RawSeries → Nat → NormSeries × Nat)
    (l : List RawSeries) (k : Nat) (x : NormSeries)
    (h : x ∈ mapDraws f l k) : ∃ d k', d ∈ l ∧ x = (f d k').1 := by
  induction l generalizing k with
  | nil => simp [mapDraws] at h
  | cons e rest ih =>
    simp only [mapDraws, List.mem_cons] at h
    rcases h with h | h
    · exact ⟨e, k, List.mem_cons_self e rest, h⟩
    · obtain ⟨d, k', hd, hx⟩ := ih (f e k).2 h
      exact ⟨d, k', List.mem_cons_of_mem e hd, hx⟩

theorem normSeriesOf_data (ct : String) (ls : List String) (o : Nat → Nat)
    (d : RawSeries) (k : Nat) :
    (normSeriesOf ct ls o d k).1.data = d.data.getD [] := rfl

theorem normSeriesOf_extra (ct : String) (ls : List String) (o : Nat → Nat)
    (d : RawSeries) (k : Nat) :
    (normSeriesOf ct ls o d k).1.extra = d.extra := rfl

theorem normSeriesOf_label_ne (ct : String) (ls : List String) (o : Nat → Nat)
    (d : RawSeries) (k : Nat) : (normSeriesOf ct ls o d k).1.label ≠ "" := by
  show (match d.label with
        | some s => if s = "" then "Series" else s
        | none => "Series") ≠ ""
  cases d.label with
  | none => simp
  | some s =>
    by_cases hs : s = "" <;> simp [hs]

theorem mapDraws_map_data (ct : String) (ls : List String) (o : Nat → Nat)
    (l : List RawSeries) (k : Nat) :
    (mapDraws (normSeriesOf ct ls o) l k).map NormSeries.data
      = l.map (fun d => d.data.getD []) := by
  induction l generalizing k with
  | nil => rfl
  | cons d rest ih => simp [mapDraws, ih, normSeriesOf_data]

theorem mapDraws_map_extra (ct : String) (ls : List String) (o : Nat → Nat)
    (l : List RawSeries) (k : Nat) :
    (mapDraws (normSeriesOf ct ls o) l k).map NormSeries.extra
      = l.map RawSeries.extra := by
  induction l generalizing k with
  | nil => rfl
  | cons d rest ih => simp [mapDraws, ih, normSeriesOf_extra]

theorem safeChartConfig_spec_eq (ct : String) (o : Nat → Nat)
    (spec : RawChartSpec) (dss : List RawSeries)
    (hds : spec.datasets = some dss) :
    safeChartConfig ct o (some spec) =
      if dss.filter isValidSeries = [] then none
      else
        some { labels := resolveLabels spec.labels dss,
               datasets :=
                 mapDraws (normSeriesOf ct (resolveLabels spec.labels dss) o)
                   (dss.filter isValidSeries) 0 } := by
  have h1 : safeChartConfig ct o (some spec) =
      (match spec.datasets with
       | none => none
       | some dss =>
         let labels := resolveLabels spec.labels dss
         let datasets :=
           mapDraws (normSeriesOf ct labels o) (dss.filter isValidSeries) 0
         if datasets.length = 0 then none else some ⟨labels, datasets⟩) := rfl
  rw [h1, hds]
  simp only [mapDraws_length, List.length_eq_zero]

/-- C3: `safeChartConfig` returns nothing exactly when the raw config is
absent, its `datasets` field is not a sequence, or filtering out the
invalid series leaves zero series; otherwise it returns a normalized
config. -/
theorem safeChartConfig_none_iff (ct : String) (o : Nat → Nat)
    (raw : Option RawChartSpec) :
    safeChartConfig ct o raw = none ↔
      raw = none ∨
      ∃ spec, raw = some spec ∧
        (spec.datasets = none ∨
         ∃ dss, spec.datasets = some dss ∧ dss.filter isValidSeries = []) := by
  cases raw with
  | none => simp [safeChartConfig]
  | some spec =>
    cases hds : spec.datasets with
    | none => simp [safeChartConfig, hds]
    | some dss =>
      rw [safeChartConfig_spec_eq ct o spec dss hds]
      by_cases hf : dss.filter isValidSeries = []
      · rw [if_pos hf]
        constructor
        · intro _
          exact Or.inr ⟨spec, rfl, Or.inr ⟨dss, hds, hf⟩⟩
        · intro _
          rfl
      · rw [if_neg hf]
        constructor
        · intro h
          exact absurd h (by simp)
        · rintro (h | ⟨spec', hspec', hbad⟩)
          · exact absurd h (by simp)
          · obtain rfl := Option.some.inj hspec'
            rcases hbad with hnone | ⟨dss', hdss', hfil'⟩
            · rw [hds] at hnone
              exact absurd hnone (by simp)
            · rw [hds] at hdss'
              obtain rfl := Option.some.inj hdss'
              exact absurd hfil' hf

/-- C4: for every chart kind, when the normalized config is nothing,
`renderChart` returns the fixed fallback plan: a line chart with literal
labels A, B, C, D and data 10, 20, 15, 30, titled to indicate no valid
data was supplied. -/
theorem renderChart_none_fallback (kind : String) :
    renderChart kind none =
      RenderPlan.line "Default Chart (No Valid Data)" ["A", "B", "C", "D"]
        [{ series := { label := "Default Data", data := [10, 20, 15, 30],
                       backgroundColor := .str "rgba(75, 192, 192, 0.2)",
                       borderColor := .str "rgba(75, 192, 192, 1)",
                       extra := [] },
           borderDash := none, pointRadius := none,
           pointBackgroundColor := none, fill := some true }] := rfl

/-- C9: the table grid has exactly one row per label, so series entries at
indices at or beyond the label count are never rendered; when the label
sequence is empty the grid has no rows. -/
theorem renderTable_row_count (c : NormConfig) :
    (renderTable (some c)).gridRows.length = c.labels.length ∧
    (c.labels = [] → (renderTable (some c)).gridRows = []) := by
  constructor
  · simp [renderTable, RenderPlan.gridRows]
  · intro h
    simp [renderTable, RenderPlan.gridRows, h]

/-- Witness for C9 at a concrete config with no labels. -/
theorem renderTable_row_count_witness :
    (renderTable (some { labels := [], datasets := [c5wds] })).gridRows = [] :=
  (renderTable_row_count { labels := [], datasets := [c5wds] }).2 rfl

/-- C1 counterexample: with no labels field, an invalid first dataset and a
valid second dataset of length 2, normalization succeeds but produces the
empty label sequence — not `["Label 1", "Label 2"]` synthesized from the
first surviving series, and not of length equal to the max series
length. -/
theorem labels_counterexample :
    ([{ data := none }, { data := some [1, 2] }] : List RawSeries).filter
        isValidSeries = [{ data := some [1, 2] }] ∧
    (safeChartConfig "bar" oracle0 (some c1input)).map NormConfig.labels
      = some [] := by
  constructor
  · rfl
  · rfl

/-- C1 (amended): when normalization succeeds, `raw.labels` is used
verbatim if it is a sequence; otherwise labels are synthesized as
`"Label <1-based index>"` for each element of the first raw dataset's
data — the first element of `datasets` before filtering, whether or not it
survives — and are empty when `datasets` is empty or that dataset's data
is missing or not a sequence. -/
theorem labels_from_first_raw_dataset (ct : String) (o : Nat → Nat)
    (spec : RawChartSpec) (dss : List RawSeries) (cfg : NormConfig)
    (hds : spec.datasets = some dss)
    (h : safeChartConfig ct o (some spec) = some cfg) :
    (∀ ls, spec.labels = some ls → cfg.labels = ls) ∧
    (spec.labels = none →
      cfg.labels =
        match dss with
        | [] => []
        | d :: _ =>
          match d.data with
          | some xs => (List.range xs.length).map (fun i => s!"Label {i + 1}")
          | none => []) := by
  rw [safeChartConfig_spec_eq ct o spec dss hds] at h
  split at h
  · exact absurd h (by simp)
  · have hcfg : cfg.labels = resolveLabels spec.labels dss := by
      obtain rfl := Option.some.inj h
      rfl
    constructor
    · intro ls hl
      rw [hcfg, hl]
      rfl
    · intro hl
      rw [hcfg, hl]
      cases dss with
      | nil => rfl
      | cons d rest =>
        cases d.data <;> rfl

/-- Witness for the amended C1 at a concrete raw spec without labels. -/
theorem labels_from_first_raw_dataset_witness :
    c1wspec.datasets = some c1wdss ∧
    safeChartConfig "bar" oracle0 (some c1wspec) = some c1wcfg ∧
    ((∀ ls, c1wspec.labels = some ls → c1wcfg.labels = ls) ∧
     (c1wspec.labels = none →
       c1wcfg.labels =
         match c1wdss with
         | [] => []
         | d :: _ =>
           match d.data with
           | some xs =>
             (List.range xs.length).map (fun i => s!"Label {i + 1}")
           | none => [])) :=
  ⟨rfl, rfl,
   labels_from_first_raw_dataset "bar" oracle0 c1wspec c1wdss c1wcfg rfl rfl⟩

/-- C2 counterexample: a config with a single series labeled `"Forecast"`
and no series labeled `"History"` — the reserved pair is not present, yet
`renderChart` applies the dashed-stroke/fill augmentation to the series. -/
theorem forecast_without_history_counterexample :
    "History" ∉ c2input.datasets.map NormSeries.label ∧
    renderChart "line" (some c2input) =
      RenderPlan.line "Data Visualization" ["a"]
        [{ series := { label := "Forecast", data := [1],
                       backgroundColor := .str "rgba(255,99,132,0.2)",
                       borderColor := .str "y", extra := [] },
           borderDash := some [6, 6], pointRadius := some 5,
           pointBackgroundColor := some "red", fill := some true }] := by
  constructor
  · decide
  · rfl

/-- C2 (amended): for kind line, the augmentation is applied exactly to
the series labeled `"Forecast"`: the modified path is taken when any
series is labeled `"History"` or `"Forecast"` (not only when the exact
pair is present), and in the output every series labeled `"Forecast"`
carries the dashed stroke, enlarged points, fixed highlight color and
area fill, while every other series is rendered unmodified, whether or
not a `"History"` series is present. -/
theorem line_forecast_augmentation (c : NormConfig) :
    renderChart "line" (some c) =
      RenderPlan.line "Data Visualization" c.labels
        (c.datasets.map (fun ds =>
          if ds.label = "Forecast" then augmentForecast ds
          else plainPlot ds)) := by
  show (if c.datasets.any
          (fun ds => ds.label == "History" || ds.label == "Forecast") then
          RenderPlan.line "Data Visualization" c.labels
            (c.datasets.map (fun ds =>
              if ds.label = "Forecast" then augmentForecast ds
              else plainPlot ds))
        else
          RenderPlan.line "Data Visualization" c.labels
            (c.datasets.map plainPlot)) = _
  split
  · rfl
  · next hany =>
    have hnof : ∀ ds ∈ c.datasets, ds.label ≠ "Forecast" := by
      intro ds hds he
      exact hany (List.any_eq_true.mpr ⟨ds, hds, by simp [he]⟩)
    have : c.datasets.map plainPlot =
        c.datasets.map (fun ds =>
          if ds.label = "Forecast" then augmentForecast ds
          else plainPlot ds) := by
      apply List.map_congr_left
      intro ds hds
      rw [if_neg (hnof ds hds)]
    rw [this]

/-- C5: for kind table, the grid has one row per label and one column per
series, and the cell at a row and column is the series' data entry at the
row index when that index is in range, and the `"N/A"` sentinel otherwise;
the computation is total, so a series shorter than the labels never makes
it throw. -/
theorem renderTable_cell_value (c : NormConfig) (i j : Nat) (ds : NormSeries)
    (hi : i < c.labels.length) (hj : c.datasets[j]? = some ds) :
    ((renderTable (some c)).gridRows[i]?).map (fun row => row.2[j]?) =
      some (some
        (if h : i < ds.data.length then Cell.num (ds.data.get ⟨i, h⟩)
         else Cell.na)) := by
  have hrows : (renderTable (some c)).gridRows =
      (List.range c.labels.length).map (fun rowIndex =>
        (c.labels.getD rowIndex "",
         c.datasets.map (fun ds =>
           match ds.data[rowIndex]? with
           | some v => Cell.num v
           | none => Cell.na))) := rfl
  rw [hrows, List.getElem?_map, List.getElem?_range hi]
  simp only [Option.map_some']
  rw [List.getElem?_map, hj]
  simp only [Option.map_some', Option.some.injEq]
  by_cases h : i < ds.data.length
  · rw [List.getElem?_eq_getElem h, dif_pos h]
    rfl
  · rw [List.getElem?_eq_none (Nat.le_of_not_lt h), dif_neg h]

/-- Witness for C5 at a concrete config whose single series is shorter
than the label sequence. -/
theorem renderTable_cell_value_witness :
    2 < c5wcfg.labels.length ∧ c5wcfg.datasets[0]? = some c5wds ∧
    ((renderTable (some c5wcfg)).gridRows[2]?).map (fun row => row.2[0]?) =
      some (some
        (if h : 2 < c5wds.data.length then Cell.num (c5wds.data.get ⟨2, h⟩)
         else Cell.na)) :=
  ⟨by decide, rfl, renderTable_cell_value c5wcfg 2 0 c5wds (by decide) rfl⟩

/-- C6: for every raw spec containing at least one valid series, the
normalization succeeds, its series sequence is non-empty, and every
normalized series label is a non-empty string. -/
theorem normalize_valid_invariant (ct : String) (o : Nat → Nat)
    (spec : RawChartSpec) (dss : List RawSeries) (d : RawSeries)
    (hds : spec.datasets = some dss) (hmem : d ∈ dss)
    (hvalid : isValidSeries d = true) :
    ∃ cfg, safeChartConfig ct o (some spec) = some cfg ∧
      cfg.datasets ≠ [] ∧ ∀ ns ∈ cfg.datasets, ns.label ≠ "" := by
  rw [safeChartConfig_spec_eq ct o spec dss hds]
  have hne : dss.filter isValidSeries ≠ [] := by
    intro hnil
    have hdmem : d ∈ dss.filter isValidSeries :=
      List.mem_filter.mpr ⟨hmem, hvalid⟩
    rw [hnil] at hdmem
    exact absurd hdmem (List.not_mem_nil d)
  rw [if_neg hne]
  refine ⟨_, rfl, ?_, ?_⟩
  · intro hnil
    apply hne
    have hlen := congrArg List.length hnil
    rw [mapDraws_length] at hlen
    exact List.length_eq_zero.mp hlen
  · intro ns hns
    obtain ⟨d', k', _, hx⟩ := mapDraws_mem _ _ _ _ hns
    rw [hx]
    exact normSeriesOf_label_ne ct (resolveLabels spec.labels dss) o d' k'

/-- Witness for C6 at a concrete raw spec with one valid series. -/
theorem normalize_valid_invariant_witness :
    c1wspec.datasets = some c1wdss ∧
    ({ data := some [1, 2] } : RawSeries) ∈ c1wdss ∧
    isValidSeries { data := some [1, 2] } = true ∧
    (∃ cfg, safeChartConfig "bar" oracle0 (some c1wspec) = some cfg ∧
      cfg.datasets ≠ [] ∧ ∀ ns ∈ cfg.datasets, ns.label ≠ "") :=
  ⟨rfl, List.mem_singleton.mpr rfl, rfl,
   normalize_valid_invariant "bar" oracle0 c1wspec c1wdss
     { data := some [1, 2] } rfl (List.mem_singleton.mpr rfl) rfl⟩

theorem safeChartConfig_dsnone (ct : String) (o : Nat → Nat)
    (spec : RawChartSpec) (hds : spec.datasets = none) :
    safeChartConfig ct o (some spec) = none := by
  have h1 : safeChartConfig ct o (some spec) =
      (match spec.datasets with
       | none => none
       | some dss =>
         let labels := resolveLabels spec.labels dss
         let datasets :=
           mapDraws (normSeriesOf ct labels o) (dss.filter isValidSeries) 0
         if datasets.length = 0 then none else some ⟨labels, datasets⟩) := rfl
  rw [h1, hds]

/-- C8: normalizing the same raw input with two different draw oracles
yields the same labels, the same series count and the same per-position
series data — colors are the only part that may differ. -/
theorem normalize_structure_deterministic (ct : String)
    (raw : Option RawChartSpec) (o₁ o₂ : Nat → Nat) :
    (safeChartConfig ct o₁ raw).map configShape
      = (safeChartConfig ct o₂ raw).map configShape := by
  cases raw with
  | none => rfl
  | some spec =>
    cases hds : spec.datasets with
    | none =>
      rw [safeChartConfig_dsnone ct o₁ spec hds,
          safeChartConfig_dsnone ct o₂ spec hds]
    | some dss =>
      rw [safeChartConfig_spec_eq ct o₁ spec dss hds,
          safeChartConfig_spec_eq ct o₂ spec dss hds]
      by_cases hf : dss.filter isValidSeries = []
      · rw [if_pos hf, if_pos hf]
      · rw [if_neg hf, if_neg hf]
        simp only [Option.map_some', Option.some.injEq, configShape,
          mapDraws_length, mapDraws_map_data]

/-- C10: normalization preserves each surviving series' data verbatim and
in order, preserves the relative order of the surviving series, and
carries every raw field other than label and the two colors (here the
`extra` map) through unchanged. -/
theorem normalize_preserves_data_and_extra (ct : String) (o : Nat → Nat)
    (spec : RawChartSpec) (dss : List RawSeries) (cfg : NormConfig)
    (hds : spec.datasets = some dss)
    (h : safeChartConfig ct o (some spec) = some cfg) :
    cfg.datasets.map NormSeries.data
        = (dss.filter isValidSeries).map (fun d => d.data.getD []) ∧
    cfg.datasets.map NormSeries.extra
        = (dss.filter isValidSeries).map RawSeries.extra := by
  rw [safeChartConfig_spec_eq ct o spec dss hds] at h
  split at h
  · exact absurd h (by simp)
  · obtain rfl := Option.some.inj h
    exact ⟨mapDraws_map_data .., mapDraws_map_extra ..⟩

/-- Witness for C10 at a concrete raw spec with one surviving series. -/
theorem normalize_preserves_data_and_extra_witness :
    c1wspec.datasets = some c1wdss ∧
    safeChartConfig "bar" oracle0 (some c1wspec) = some c1wcfg ∧
    (c1wcfg.datasets.map NormSeries.data
        = (c1wdss.filter isValidSeries).map (fun d => d.data.getD []) ∧
     c1wcfg.datasets.map NormSeries.extra
        = (c1wdss.filter isValidSeries).map RawSeries.extra) :=
  ⟨rfl, rfl,
   normalize_preserves_data_and_extra "bar" oracle0 c1wspec c1wdss c1wcfg
     rfl rfl⟩

theorem normSeriesOf_bg_explicit (ct : String) (ls : List String)
    (o : Nat → Nat) (d : RawSeries) (k : Nat) (v : CVal)
    (hv : d.backgroundColor = some v) (ht : v.truthy = true) :
    (normSeriesOf ct ls o d k).1.backgroundColor = v := by
  simp [normSeriesOf, hv, ht]

theorem normSeriesOf_bg_gen (ct : String) (ls : List String) (o : Nat → Nat)
    (d : RawSeries) (k : Nat) (hv : d.backgroundColor = none) :
    (normSeriesOf ct ls o d k).1.backgroundColor
      = (genBgColor ct ls o k).1 := by
  simp [normSeriesOf, hv]

theorem normSeriesOf_bc_explicit (ct : String) (ls : List String)
    (o : Nat → Nat) (d : RawSeries) (k : Nat) (v : CVal)
    (hv : d.borderColor = some v) (ht : v.truthy = true) :
    (normSeriesOf ct ls o d k).1.borderColor = v := by
  simp [normSeriesOf, hv, ht]

theorem normSeriesOf_bc_gen (ct : String) (ls : List String) (o : Nat → Nat)
    (d : RawSeries) (k : Nat) (hv : d.borderColor = none) :
    ∃ k₁, (normSeriesOf ct ls o d k).1.borderColor
        = CVal.single (randomColor o k₁ 100) := by
  cases hbg : d.backgroundColor with
  | none =>
    exact ⟨(genBgColor ct ls o k).2, by simp [normSeriesOf, hv, hbg]⟩
  | some v =>
    by_cases ht : v.truthy = true
    · exact ⟨k, by simp [normSeriesOf, hv, hbg, ht]⟩
    · exact ⟨(genBgColor ct ls o k).2, by simp [normSeriesOf, hv, hbg, ht]⟩

/-- C7: for every surviving series, an explicitly provided (truthy)
background color is used unchanged; when it is absent, kind line receives
a single random rgba fill of alpha 0.2 shared by the series, and every
other kind receives one independent random rgba color of alpha 0.6 per
label, drawn at pairwise distinct oracle positions; an absent border
color defaults to a fully opaque (alpha 1) random rgba color. -/
theorem color_resolution (ct : String) (o : Nat → Nat) (spec : RawChartSpec)
    (dss : List RawSeries) (cfg : NormConfig) (j : Nat) (d : RawSeries)
    (ns : NormSeries)
    (hds : spec.datasets = some dss)
    (h : safeChartConfig ct o (some spec) = some cfg)
    (hd : (dss.filter isValidSeries)[j]? = some d)
    (hns : cfg.datasets[j]? = some ns) :
    (∀ v, d.backgroundColor = some v → v.truthy = true →
       ns.backgroundColor = v) ∧
    (d.backgroundColor = none →
       if ct = "line" then
         ∃ k, ns.backgroundColor = CVal.single (randomColor o k 20)
       else
         ∃ k, ns.backgroundColor =
           CVal.perLabel ((List.range cfg.labels.length).map
             (fun i => randomColor o (k + 3 * i) 60))) ∧
    (∀ v, d.borderColor = some v → v.truthy = true →
       ns.borderColor = v) ∧
    (d.borderColor = none →
       ∃ k, ns.borderColor = CVal.single (randomColor o k 100)) := by
  rw [safeChartConfig_spec_eq ct o spec dss hds] at h
  split at h
  · exact absurd h (by simp)
  · obtain rfl := Option.some.inj h
    dsimp only at hns ⊢
    obtain ⟨k', hk'⟩ := mapDraws_getElem
      (normSeriesOf ct (resolveLabels spec.labels dss) o)
      (dss.filter isValidSeries) 0 j d hd
    rw [hk'] at hns
    obtain rfl := Option.some.inj hns
    refine ⟨?_, ?_, ?_, ?_⟩
    · intro v hv ht
      exact normSeriesOf_bg_explicit ct _ o d k' v hv ht
    · intro hv
      by_cases hline : ct = "line"
      · rw [if_pos hline]
        refine ⟨k', ?_⟩
        rw [normSeriesOf_bg_gen ct _ o d k' hv, hline]
        simp [genBgColor]
      · rw [if_neg hline]
        refine ⟨k', ?_⟩
        rw [normSeriesOf_bg_gen ct _ o d k' hv]
        simp [genBgColor, hline]
    · intro v hv ht
      exact normSeriesOf_bc_explicit ct _ o d k' v hv ht
    · intro hv
      exact normSeriesOf_bc_gen ct _ o d k' hv

/-- Witness for C7 at a concrete raw spec, bar kind and identity oracle. -/
theorem color_resolution_witness :
    c7wspec.datasets = some [c7wraw] ∧
    safeChartConfig "bar" oracleId (some c7wspec) = some c7wcfg ∧
    ([c7wraw].filter isValidSeries)[0]? = some c7wraw ∧
    c7wcfg.datasets[0]? = some
      { label := "Series", data := [7],
        backgroundColor := .perLabel [⟨0, 1, 2, 60⟩],
        borderColor := .single ⟨3, 4, 5, 100⟩, extra := [] } ∧
    ((∀ v, c7wraw.backgroundColor = some v → v.truthy = true →
        ({ label := "Series", data := [7],
           backgroundColor := .perLabel [⟨0, 1, 2, 60⟩],
           borderColor := .single ⟨3, 4, 5, 100⟩,
           extra := [] } : NormSeries).backgroundColor = v) ∧
     (c7wraw.backgroundColor = none →
        if "bar" = "line" then
          ∃ k, ({ label := "Series", data := [7],
                  backgroundColor := .perLabel [⟨0, 1, 2, 60⟩],
                  borderColor := .single ⟨3, 4, 5, 100⟩,
                  extra := [] } : NormSeries).backgroundColor
            = CVal.single (randomColor oracleId k 20)
        else
          ∃ k, ({ label := "Series", data := [7],
                  backgroundColor := .perLabel [⟨0, 1, 2, 60⟩],
                  borderColor := .single ⟨3, 4, 5, 100⟩,
                  extra := [] } : NormSeries).backgroundColor =
            CVal.perLabel ((List.range c7wcfg.labels.length).map
              (fun i => randomColor oracleId (k + 3 * i) 60))) ∧
     (∀ v, c7wraw.borderColor = some v → v.truthy = true →
        ({ label := "Series", data := [7],
           backgroundColor := .perLabel [⟨0, 1, 2, 60⟩],
           borderColor := .single ⟨3, 4, 5, 100⟩,
           extra := [] } : NormSeries).borderColor = v) ∧
     (c7wraw.borderColor = none →
        ∃ k, ({ label := "Series", data := [7],
                backgroundColor := .perLabel [⟨0, 1, 2, 60⟩],
                borderColor := .single ⟨3, 4, 5, 100⟩,
                extra := [] } : NormSeries).borderColor
          = CVal.single (randomColor oracleId k 100))) :=
  ⟨rfl, rfl, rfl, rfl,
   color_resolution "bar" oracleId c7wspec [c7wraw] c7wcfg 0 c7wraw
     { label := "Series", data := [7],
       backgroundColor := .perLabel [⟨0, 1, 2, 60⟩],
       borderColor := .single ⟨3, 4, 5, 100⟩, extra := [] }
     rfl rfl rfl rfl⟩
